import Mathlib

/-!
Verification development for the Trello-to-GitHub migration tool
(`src/index.ts`, schemas in `src/lib/schemas.ts`).

The definitions below are a shallow embedding of the program: JavaScript
strings become `String`, JS integers become `Int`, JS `Map` becomes an
insertion-ordered association list (`mapSet` / `mapGet`), a JS `Date` is
modelled by its two observations used in the program (`getTime` and
`toLocaleDateString`), and JS truthiness of the `number | string`
reference values is modelled explicitly (`Ref.truthy`).
-/

set_option linter.unusedVariables false

/-- A mapping reference: either a string name or an integer ID
(the TOML schema's `z.union([z.int(), z.string()])`). -/
inductive Ref where
  | int (n : Int)
  | str (s : String)
  deriving DecidableEq, Repr

/-- JS truthiness of a `number | string` value: `0` and `""` are falsy. -/
def Ref.truthy : Ref → Bool
  | .int n => n != 0
  | .str s => s != ""

/-- The test `typeof x === "string"` on a reference. -/
def Ref.isStr : Ref → Bool
  | .int _ => false
  | .str _ => true

/-- The string payload of a string reference (`""` on an integer). -/
def Ref.strVal : Ref → String
  | .int _ => ""
  | .str s => s

/-- Truthiness of an optional reference (`undefined` is falsy). -/
def optTruthy : Option Ref → Bool
  | none => false
  | some r => r.truthy

/-- Truthiness of an optional integer (`map.project`). -/
def intOptTruthy : Option Int → Bool
  | none => false
  | some n => n != 0

/-- Truthiness of a `string | null` value. -/
def strOptTruthy : Option String → Bool
  | none => false
  | some s => s != ""

/-! ## Source board (Trello export, `BoardExport` schema) -/

/-- A JS `Date`, modelled by the two observations the program makes of it:
`getTime()` (milliseconds) and `toLocaleDateString()`. -/
structure DateVal where
  time : Int
  localeDate : String
  deriving DecidableEq, Repr

structure TrelloLabel where
  id : String
  name : String
  color : String
  deriving DecidableEq, Repr

structure TrelloList where
  id : String
  name : String
  closed : Bool
  deriving DecidableEq, Repr

structure TrelloMember where
  id : String
  fullName : String
  username : String
  deriving DecidableEq, Repr

structure Attachment where
  id : String
  name : String
  url : String
  deriving DecidableEq, Repr

inductive CheckState where
  | complete
  | incomplete
  deriving DecidableEq, Repr

structure CheckItem where
  id : String
  name : String
  state : CheckState
  deriving DecidableEq, Repr

structure Checklist where
  id : String
  name : String
  idCard : String
  checkItems : List CheckItem
  deriving DecidableEq, Repr

structure TrelloCard where
  id : String
  name : String
  url : String
  closed : Bool
  desc : String
  idChecklists : List String
  idList : String
  idMembers : List String
  labels : List TrelloLabel
  attachments : List Attachment
  deriving DecidableEq, Repr

structure CommentAction where
  id : String
  memberCreatorId : String
  memberCreatorUsername : String
  idCard : String
  text : String
  date : DateVal
  deriving DecidableEq, Repr

/-- An entry of `trello.actions`: comment actions carry data; every other
action shape is stripped by the schema to an empty object. -/
inductive TrelloAction where
  | commentCard (c : CommentAction)
  | other
  deriving DecidableEq, Repr

structure Board where
  name : String
  lists : List TrelloList
  members : List TrelloMember
  actions : List TrelloAction
  cards : List TrelloCard
  labels : List TrelloLabel
  checklists : List Checklist
  deriving DecidableEq, Repr

/-! ## Mapping configuration (`MapFormat` schema) -/

/-- A label mapping rule: the schema's discriminated union on `create`.
A lookup rule references an existing target label by name or ID; a create
rule carries the name to create and an optional color. -/
inductive LabelRule where
  | lookup (trello : String) (github : Ref)
  | create (trello : String) (github : String) (color : Option String)
  deriving DecidableEq, Repr

/-- The rule's Trello-side label name. -/
def LabelRule.trelloName : LabelRule → String
  | .lookup t _ => t
  | .create t _ _ => t

structure ListRule where
  list : String
  status : Option Ref
  create : Bool
  label : Option Ref
  milestone : Option Ref
  deriving DecidableEq, Repr

structure UserRule where
  trello : String
  github : String
  deriving DecidableEq, Repr

structure MapFormat where
  project : Option Int
  labels : List LabelRule
  users : List UserRule
  lists : List ListRule
  skipLists : List String
  deriving DecidableEq, Repr

/-! ## Target snapshot (GitHub) -/

structure GithubLabel where
  id : Int
  name : String
  deriving DecidableEq, Repr

structure GithubMilestone where
  id : Int
  number : Int
  title : String
  deriving DecidableEq, Repr

structure StatusOption where
  id : String
  name : String
  color : String
  deriving DecidableEq, Repr

structure ProjectInfo where
  projectId : String
  projectName : String
  statusFieldId : String
  statusFieldOptions : List StatusOption
  deriving DecidableEq, Repr

structure ExistingItem where
  id : String
  issueNumber : Int
  issueTitle : String
  currentStatus : Option String
  deriving DecidableEq, Repr

/-! ## JS `Map` as an insertion-ordered association list -/

/-- JS `Map.prototype.set`: overwrite an existing key, else append. -/
def mapSet {α : Type} (m : List (String × α)) (k : String) (v : α) :
    List (String × α) :=
  if m.any (fun p => p.1 == k) then
    m.map (fun p => if p.1 == k then (k, v) else p)
  else m ++ [(k, v)]

/-- JS `Map.prototype.get`: the value stored at a key, if any. -/
def mapGet {α : Type} (m : List (String × α)) (k : String) : Option α :=
  (m.find? (fun p => p.1 == k)).map (·.2)

/-! ## Identity matchers (`===` with JS semantics: a number is never
equal to a string) -/

/-- The test `(Number.isInteger(ref) && ghLabel.id === ref) || ghLabel.name === ref`. -/
def labelRefMatches (r : Ref) (g : GithubLabel) : Bool :=
  match r with
  | .int n => g.id == n
  | .str s => g.name == s

/-- The test `(Number.isInteger(ref) && (m.id === ref || m.number === ref)) || m.title === ref`. -/
def milestoneRefMatches (r : Ref) (gm : GithubMilestone) : Bool :=
  match r with
  | .int n => gm.id == n || gm.number == n
  | .str s => gm.title == s

/-- The test `field.id === ref || field.name === ref`; option IDs are strings, so an
integer reference matches nothing. -/
def statusRefMatches (r : Ref) (f : StatusOption) : Bool :=
  match r with
  | .int _ => false
  | .str s => f.id == s || f.name == s

/-! ## Label resolver (`src/index.ts` lines 378–430) -/

/-- The resolved-label tagged union (`Label` in `src/lib/label.ts`,
as used by `src/index.ts`). -/
inductive ResolvedLabel where
  | skipped (trello : TrelloLabel)
  | toCreate (trello : TrelloLabel) (githubName : String) (color : Option String)
  | mapped (trello : TrelloLabel) (github : GithubLabel)
  | missing (trello : TrelloLabel) (githubLookup : Ref)
  | listMapped (github : GithubLabel) (trelloList : TrelloList)
  | missingList (githubLookup : Ref) (trelloList : TrelloList)
  deriving DecidableEq, Repr

/-- Classification of one source label (the body of the
`for (const trelloLabel of trello.labels)` loop). -/
def resolveLabel (rules : List LabelRule) (gh : List GithubLabel)
    (tl : TrelloLabel) : ResolvedLabel :=
  match rules.find? (fun r => r.trelloName == tl.name) with
  | none => .skipped tl
  | some (.create _ n c) => .toCreate tl n c
  | some (.lookup _ ref) =>
    match gh.find? (fun g => labelRefMatches ref g) with
    | none => .missing tl ref
    | some g => .mapped tl g

def resolveLabels (rules : List LabelRule) (gh : List GithubLabel)
    (boardLabels : List TrelloLabel) : List ResolvedLabel :=
  boardLabels.map (resolveLabel rules gh)

/-! ## List-rule resolution (`src/index.ts` lines 380–497) -/

structure ResolveState where
  labels : List ResolvedLabel
  invalidLists : List String
  validMilestones : List (String × GithubMilestone)
  missingMilestones : List Ref
  validStatusFields : List (String × StatusOption)
  missingStatusFields : List Ref
  statusFieldsToCreate : List (String × String)
  usedStatusWithoutProject : Bool
  deriving DecidableEq, Repr

/-- The `if (projectInfo && mapping.status)` block. The inner `none` branch
mirrors the source's inner `if (!projectInfo)` guard, which cannot fire
because the outer condition already requires `projectInfo`. -/
def statusStep (pinfo : Option ProjectInfo) (tl : TrelloList) (m : ListRule)
    (st : ResolveState) : ResolveState :=
  if pinfo.isSome && optTruthy m.status then
    match pinfo with
    | none => { st with usedStatusWithoutProject := true }
    | some pi =>
      match m.status with
      | none => st
      | some ref =>
        match pi.statusFieldOptions.find? (fun f => statusRefMatches ref f) with
        | none =>
          if m.create && ref.isStr then
            { st with statusFieldsToCreate :=
                st.statusFieldsToCreate ++ [(tl.id, ref.strVal)] }
          else
            { st with missingStatusFields := st.missingStatusFields ++ [ref] }
        | some f =>
          { st with validStatusFields := mapSet st.validStatusFields tl.id f }
  else st

/-- The `if (mapping.milestone)` block; a miss `continue`s past the status
step. -/
def milestoneStep (gms : List GithubMilestone) (pinfo : Option ProjectInfo)
    (tl : TrelloList) (m : ListRule) (st : ResolveState) : ResolveState :=
  if optTruthy m.milestone then
    match m.milestone with
    | none => st
    | some ref =>
      match gms.find? (fun gm => milestoneRefMatches ref gm) with
      | none => { st with missingMilestones := st.missingMilestones ++ [ref] }
      | some gm =>
        statusStep pinfo tl m
          { st with validMilestones := mapSet st.validMilestones tl.id gm }
  else statusStep pinfo tl m st

/-- The `if (mapping.label)` block; a miss `continue`s past the milestone
and status steps. -/
def listLabelStep (ghLabels : List GithubLabel) (gms : List GithubMilestone)
    (pinfo : Option ProjectInfo) (tl : TrelloList) (m : ListRule)
    (st : ResolveState) : ResolveState :=
  if optTruthy m.label then
    match m.label with
    | none => st
    | some ref =>
      match ghLabels.find? (fun g => labelRefMatches ref g) with
      | none => { st with labels := st.labels ++ [.missingList ref tl] }
      | some g =>
        milestoneStep gms pinfo tl m
          { st with labels := st.labels ++ [.listMapped g tl] }
  else milestoneStep gms pinfo tl m st

/-- One iteration of `for (const mapping of map.lists)`. -/
def processListRule (board : Board) (ghLabels : List GithubLabel)
    (gms : List GithubMilestone) (pinfo : Option ProjectInfo)
    (st : ResolveState) (m : ListRule) : ResolveState :=
  match board.lists.find? (fun l => l.id == m.list || l.name == m.list) with
  | none => { st with invalidLists := st.invalidLists ++ [m.list] }
  | some tl => listLabelStep ghLabels gms pinfo tl m st

def initState (labels0 : List ResolvedLabel) : ResolveState :=
  { labels := labels0, invalidLists := [], validMilestones := [],
    missingMilestones := [], validStatusFields := [],
    missingStatusFields := [], statusFieldsToCreate := [],
    usedStatusWithoutProject := false }

/-- Full resolution pass: source-label classification followed by the
list-rule loop. -/
def resolveAll (board : Board) (m : MapFormat) (ghLabels : List GithubLabel)
    (gms : List GithubMilestone) (pinfo : Option ProjectInfo) : ResolveState :=
  m.lists.foldl (processListRule board ghLabels gms pinfo)
    (initState (resolveLabels m.labels ghLabels board.labels))

/-! ## Skipped lists (`src/index.ts` lines 499–515) -/

/-- The loop `for (const listKey of map.skip.lists)`: resolve each key against the
source lists; unresolved keys go to `invalidLists`. -/
def processSkips (board : Board) (skipKeys : List String)
    (startInvalid : List String) : List TrelloList × List String :=
  skipKeys.foldl
    (fun acc key =>
      match board.lists.find? (fun l => l.id == key || l.name == key) with
      | some tl => (acc.1 ++ [tl], acc.2)
      | none => (acc.1, acc.2 ++ [key]))
    ([], startInvalid)

/-! ## Derived label classes (`src/index.ts` lines 517–524) -/

def isMappedKind : ResolvedLabel → Bool
  | .toCreate _ _ _ => true
  | .mapped _ _ => true
  | .listMapped _ _ => true
  | _ => false

def isMissingKind : ResolvedLabel → Bool
  | .missing _ _ => true
  | .missingList _ _ => true
  | _ => false

def isSkippedKind : ResolvedLabel → Bool
  | .skipped _ => true
  | _ => false

/-! ## Member resolution (`src/index.ts` lines 294–314, 618–619, 698–714) -/

/-- One entry of the `users` array: `login = none` models the 404 case
(`github: null`). -/
structure UserEntry where
  trelloName : String
  githubName : String
  login : Option String
  deriving DecidableEq, Repr

def mkUsers (rules : List UserRule) (lookupUser : String → Option String) :
    List UserEntry :=
  rules.map (fun u =>
    { trelloName := u.trello, githubName := u.github,
      login := lookupUser u.github })

/-- Function `mapMemberId`: source member looked up by ID; a verified mapping found
where its Trello name is the member's ID, username, or full name. -/
def mapMemberId (members : List TrelloMember) (validMembers : List UserEntry)
    (trelloMemberId : String) : Option String :=
  match members.find? (fun mem => mem.id == trelloMemberId) with
  | none => none
  | some tm =>
    match validMembers.find? (fun mem =>
        mem.trelloName == tm.id || mem.trelloName == tm.username ||
        mem.trelloName == tm.fullName) with
    | none => none
    | some mem => mem.login

def mapMemberIds (members : List TrelloMember) (validMembers : List UserEntry)
    (ids : List String) : List String :=
  ids.filterMap (mapMemberId members validMembers)

/-! ## Card transformer (`src/index.ts` lines 716–809) -/

/-- JS `Array.prototype.join(sep)`: the first element, then each further
element preceded by the separator. -/
def joinStrs (sep : String) : List String → String
  | [] => ""
  | a :: rest => rest.foldl (fun acc x => acc ++ sep ++ x) a

/-- Function `getChecklistContentForCard`: `null` when no linked checklist exists. -/
def getChecklistContentForCard (board : Board) (card : TrelloCard) :
    Option String :=
  let checklists := card.idChecklists.filterMap
    (fun id => board.checklists.find? (fun c => c.id == id))
  if checklists.length < 1 then none
  else
    some (joinStrs "\n"
      ("\n## Checklists" ::
        (checklists.map (fun cl =>
          ("### " ++ cl.name) ::
            cl.checkItems.map (fun item =>
              (if item.state == CheckState.complete then "- [x] "
               else "- [ ] ") ++ item.name))).flatten))

/-- Function `getDescriptionForCard`: description, checklist section and provenance
footer joined by horizontal-rule separators. -/
def getDescriptionForCard (board : Board) (card : TrelloCard) : String :=
  let body1 := if card.desc.length > 0 then card.desc else ""
  let cs := getChecklistContentForCard board card
  let body2 :=
    if strOptTruthy cs then
      (if card.desc.length > 0 then body1 ++ "\n\n---\n\n" else body1) ++
        cs.getD ""
    else body1
  let body3 :=
    if card.desc.length > 0 || strOptTruthy cs then body2 ++ "\n\n---\n\n"
    else body2
  body3 ++ "> Migrated from [Trello Card](" ++ card.url ++ ")\n" ++
    joinStrs "\n"
      (card.attachments.map (fun a => "- [" ++ a.name ++ "](" ++ a.url ++ ")"))

/-- The target-side name carried by a mapped-class resolved label. -/
def resolvedGithubName : ResolvedLabel → Option String
  | .toCreate _ n _ => some n
  | .mapped _ g => some g.name
  | .listMapped g _ => some g.name
  | _ => none

/-- Function `getLabelsForCard`: card-label matches from the mapped labels, then the
single list-derived label. -/
def getLabelsForCard (mappedLabels : List ResolvedLabel) (card : TrelloCard) :
    List String :=
  let fromCardLabels := card.labels.filterMap (fun tl =>
    (mappedLabels.find? (fun l =>
      match l with
      | .toCreate t _ _ => t.name == tl.name
      | .mapped t _ => t.name == tl.name
      | .missing t _ => t.name == tl.name
      | .skipped t => t.name == tl.name
      | _ => false)).bind resolvedGithubName)
  let listPart :=
    match mappedLabels.find? (fun l =>
      match l with
      | .listMapped _ tls => tls.id == card.idList
      | _ => false) with
    | some l => (resolvedGithubName l).toList
    | none => []
  fromCardLabels ++ listPart

/-! ## Comments (`src/index.ts` lines 791–809) -/

/-- The comment-type actions whose card reference matches
(`a.type === "commentCard" && a.data.idCard === card.id`). -/
def commentsFor (actions : List TrelloAction) (card : TrelloCard) :
    List CommentAction :=
  actions.filterMap (fun a =>
    match a with
    | .commentCard c => if c.idCard == card.id then some c else none
    | .other => none)

/-- Ascending-timestamp order used by the comment sort comparator. -/
def commentLE (a b : CommentAction) : Prop := a.date.time ≤ b.date.time

instance : DecidableRel commentLE := fun a b => Int.decLe _ _

instance : IsTotal CommentAction commentLE :=
  ⟨fun a b => Int.le_total a.date.time b.date.time⟩

instance : IsTrans CommentAction commentLE :=
  ⟨fun _ _ _ hab hbc => le_trans hab hbc⟩

/-- The stable ascending sort performed by
`commentActions.sort((a, b) => a.date.getTime() - b.date.getTime())`. -/
def sortComments (cs : List CommentAction) : List CommentAction :=
  cs.insertionSort commentLE

/-- One rendered comment: member header plus date, then the text verbatim. -/
def renderComment (members : List TrelloMember) (validMembers : List UserEntry)
    (action : CommentAction) : String :=
  let memberString :=
    match mapMemberId members validMembers action.memberCreatorId with
    | some login => "@" ++ login
    | none => "`@" ++ action.memberCreatorUsername ++ "`"
  "## " ++ memberString ++ " • " ++ action.date.localeDate ++ "\n" ++
    action.text

def getCommentsForCard (board : Board) (validMembers : List UserEntry)
    (card : TrelloCard) : List String :=
  (sortComments (commentsFor board.actions card)).map
    (renderComment board.members validMembers)

/-! ## Status synchronizer (`src/index.ts` lines 858–978) -/

/-- The decision for one existing project item: the expected status, when an
update call must be issued. -/
def syncStep (cards : List TrelloCard) (vsf : List (String × StatusOption))
    (item : ExistingItem) : Option (String × StatusOption) :=
  (cards.find? (fun card => card.name == item.issueTitle)).bind (fun card =>
    (mapGet vsf card.idList).bind (fun expected =>
      if item.currentStatus == some expected.name then none
      else some (item.id, expected)))

/-- The effect on the item of the issued update call: its status-field value
becomes the expected option, so its status name reads back as the expected
name. -/
def applySyncItem (cards : List TrelloCard) (vsf : List (String × StatusOption))
    (item : ExistingItem) : ExistingItem :=
  match syncStep cards vsf item with
  | none => item
  | some r => { item with currentStatus := some r.2.name }

def applySync (cards : List TrelloCard) (vsf : List (String × StatusOption))
    (items : List ExistingItem) : List ExistingItem :=
  items.map (applySyncItem cards vsf)

/-! ## Mutating target calls and the orchestrator -/

inductive MutCall where
  | createLabel (name : String) (color : Option String)
  | createIssue (title : String) (body : String) (labels : List String)
      (assignees : List String) (milestone : Option Int)
  | createComment (issueNumber : Int) (body : String)
  | addToProject (projectId : String) (issueNodeId : String)
  | setStatus (itemId : String) (statusId : String) (statusName : String)
  deriving DecidableEq, Repr

/-- The field-value update calls issued by the existing-items loop. -/
def syncCalls (cards : List TrelloCard) (vsf : List (String × StatusOption))
    (items : List ExistingItem) : List MutCall :=
  items.filterMap (fun item =>
    (syncStep cards vsf item).map
      (fun r => MutCall.setStatus r.1 r.2.id r.2.name))

structure RunOptions where
  dryRun : Bool
  keepClosed : Bool
  keepClosedLists : Bool
  deriving DecidableEq, Repr

/-- The live target system, as read by the run: snapshots, the user lookup,
existing project items, and the identities the target hands back for the
`i`-th created issue. -/
structure TargetSnapshot where
  githubLabels : List GithubLabel
  githubMilestones : List GithubMilestone
  project : ProjectInfo
  lookupUser : String → Option String
  existingItems : List ExistingItem
  issueNumberOf : Nat → Int
  issueNodeIdOf : Nat → String
  itemIdOf : Nat → String

/-- Function `getProjectInfo` returns `null` unless `map.project` is truthy. -/
def projectInfoOf (m : MapFormat) (snap : TargetSnapshot) : Option ProjectInfo :=
  if intOptTruthy m.project then some snap.project else none

/-- The transform `color?.trim().replace(/^#/, "")`. -/
def normalizeColor (c : String) : String :=
  let t := c.trim
  if t.startsWith "#" then t.drop 1 else t

/-- Everything the run has computed when it reaches the validity check
(`src/index.ts` line 633). -/
structure RunContext where
  pinfo : Option ProjectInfo
  st : ResolveState
  skippedLists : List TrelloList
  invalidLists : List String
  cards : List TrelloCard
  mappedLabels : List ResolvedLabel
  missingLabels : List ResolvedLabel
  skippedLabels : List ResolvedLabel
  users : List UserEntry
  validMembers : List UserEntry
  invalidMembers : List UserEntry

def mkContext (board : Board) (m : MapFormat) (snap : TargetSnapshot)
    (opts : RunOptions) : RunContext :=
  let cards0 :=
    if opts.keepClosed then board.cards
    else board.cards.filter (fun card => !card.closed)
  let closedLists := (board.lists.filter (fun l => l.closed)).map (fun l => l.id)
  let cards1 :=
    if opts.keepClosedLists then cards0
    else cards0.filter (fun card => !(closedLists.contains card.idList))
  let pinfo := projectInfoOf m snap
  let st := resolveAll board m snap.githubLabels snap.githubMilestones pinfo
  let skipRes := processSkips board m.skipLists st.invalidLists
  let cards2 := cards1.filter
    (fun card => !(skipRes.1.any (fun l => l.id == card.idList)))
  let users := mkUsers m.users snap.lookupUser
  { pinfo := pinfo, st := st, skippedLists := skipRes.1,
    invalidLists := skipRes.2, cards := cards2,
    mappedLabels := st.labels.filter isMappedKind,
    missingLabels := st.labels.filter isMissingKind,
    skippedLabels := st.labels.filter isSkippedKind,
    users := users,
    validMembers := users.filter (fun u => u.login.isSome),
    invalidMembers := users.filter (fun u => !u.login.isSome) }

/-- The aggregated failure condition (`src/index.ts` lines 633–641). -/
def migrationFails (ctx : RunContext) : Bool :=
  decide (ctx.missingLabels.length > 0) ||
  decide (ctx.invalidMembers.length > 0) ||
  decide (ctx.invalidLists.length > 0) ||
  decide (ctx.st.missingMilestones.length > 0) ||
  decide (ctx.st.missingStatusFields.length > 0) ||
  decide (ctx.st.statusFieldsToCreate.length > 0) ||
  ctx.st.usedStatusWithoutProject

/-- The plan is valid when the failure condition does not hold. -/
def planValid (ctx : RunContext) : Bool := !migrationFails ctx

/-- The label-creation calls (`src/index.ts` lines 652–696). -/
def labelCreationCalls (ctx : RunContext) : List MutCall :=
  (ctx.st.labels.filterMap (fun l =>
    match l with
    | .toCreate _ n c => some (n, c)
    | _ => none)).map
      (fun r => MutCall.createLabel r.1 (r.2.map normalizeColor))

/-- The per-card calls of the issue-creation loop
(`src/index.ts` lines 994–1037). Note the source reads the milestone map at
`card.id`, not `card.idList`. -/
def issueCallsForCard (board : Board) (snap : TargetSnapshot)
    (ctx : RunContext) (i : Nat) (card : TrelloCard) : List MutCall :=
  [MutCall.createIssue card.name (getDescriptionForCard board card)
      (getLabelsForCard ctx.mappedLabels card)
      (mapMemberIds board.members ctx.validMembers card.idMembers)
      ((mapGet ctx.st.validMilestones card.id).map (fun ms => ms.number))] ++
  (getCommentsForCard board ctx.validMembers card).map
    (fun c => MutCall.createComment (snap.issueNumberOf i) c) ++
  (match ctx.pinfo with
   | none => []
   | some pi =>
     MutCall.addToProject pi.projectId (snap.issueNodeIdOf i) ::
       (match mapGet ctx.st.validStatusFields card.idList with
        | some s => [MutCall.setStatus (snap.itemIdOf i) s.id s.name]
        | none => []))

def issueLoopCalls (board : Board) (snap : TargetSnapshot)
    (ctx : RunContext) : List MutCall :=
  (ctx.cards.enum.map (fun p => issueCallsForCard board snap ctx p.1 p.2)).flatten

/-- The end-to-end run after input parsing: resolve, validate, and — only on
a valid plan — create labels, synchronize existing items, and create the
issues. Returns the validity verdict and the sequence of mutating calls. -/
def migrate (board : Board) (m : MapFormat) (snap : TargetSnapshot)
    (opts : RunOptions) : Bool × List MutCall :=
  let ctx := mkContext board m snap opts
  if migrationFails ctx then (false, [])
  else
    (true,
      labelCreationCalls ctx ++
      (if ctx.pinfo.isSome && decide (ctx.st.validStatusFields.length > 0) then
        syncCalls ctx.cards ctx.st.validStatusFields snap.existingItems
      else []) ++
      issueLoopCalls board snap ctx)

/-! ## Concrete inputs used by individual claims -/

def c1Board : Board :=
  { name := "B", lists := [{ id := "l1", name := "TODO", closed := false }],
    members := [], actions := [], cards := [], labels := [], checklists := [] }

def c1Map : MapFormat :=
  { project := none, labels := [], users := [],
    lists := [{ list := "TODO", status := some (Ref.str "Done"),
                create := false, label := none, milestone := none }],
    skipLists := [] }

def c1Snap : TargetSnapshot :=
  { githubLabels := [], githubMilestones := [],
    project := { projectId := "", projectName := "", statusFieldId := "",
                 statusFieldOptions := [] },
    lookupUser := fun _ => none, existingItems := [],
    issueNumberOf := fun _ => 0, issueNodeIdOf := fun _ => "",
    itemIdOf := fun _ => "" }

def c1Opts : RunOptions :=
  { dryRun := false, keepClosed := false, keepClosedLists := false }

/-! ## Helper lemmas: the `usedStatusWithoutProject` flag is never set -/

theorem usedStatus_statusStep (pinfo : Option ProjectInfo) (tl : TrelloList)
    (m : ListRule) (st : ResolveState) :
    (statusStep pinfo tl m st).usedStatusWithoutProject =
      st.usedStatusWithoutProject := by
  unfold statusStep
  split
  · rename_i hc
    cases pinfo with
    | none => simp at hc
    | some pi =>
      cases m.status with
      | none => rfl
      | some ref =>
        cases hf : pi.statusFieldOptions.find? (fun f => statusRefMatches ref f) with
        | none =>
          simp only [hf]
          split <;> rfl
        | some f => simp only [hf]
  · rfl

theorem usedStatus_milestoneStep (gms : List GithubMilestone)
    (pinfo : Option ProjectInfo) (tl : TrelloList) (m : ListRule)
    (st : ResolveState) :
    (milestoneStep gms pinfo tl m st).usedStatusWithoutProject =
      st.usedStatusWithoutProject := by
  unfold milestoneStep
  split
  · cases m.milestone with
    | none => rfl
    | some ref =>
      cases hf : gms.find? (fun gm => milestoneRefMatches ref gm) with
      | none => simp only [hf]
      | some gm => simp only [hf]; rw [usedStatus_statusStep]
  · rw [usedStatus_statusStep]

theorem usedStatus_listLabelStep (ghLabels : List GithubLabel)
    (gms : List GithubMilestone) (pinfo : Option ProjectInfo)
    (tl : TrelloList) (m : ListRule) (st : ResolveState) :
    (listLabelStep ghLabels gms pinfo tl m st).usedStatusWithoutProject =
      st.usedStatusWithoutProject := by
  unfold listLabelStep
  split
  · cases m.label with
    | none => rfl
    | some ref =>
      cases hf : ghLabels.find? (fun g => labelRefMatches ref g) with
      | none => simp only [hf]
      | some g => simp only [hf]; rw [usedStatus_milestoneStep]
  · rw [usedStatus_milestoneStep]

theorem usedStatus_processListRule (board : Board)
    (ghLabels : List GithubLabel) (gms : List GithubMilestone)
    (pinfo : Option ProjectInfo) (st : ResolveState) (m : ListRule) :
    (processListRule board ghLabels gms pinfo st m).usedStatusWithoutProject =
      st.usedStatusWithoutProject := by
  unfold processListRule
  cases board.lists.find? (fun l => l.id == m.list || l.name == m.list) with
  | none => rfl
  | some tl => rw [usedStatus_listLabelStep]

theorem usedStatus_foldl (board : Board) (ghLabels : List GithubLabel)
    (gms : List GithubMilestone) (pinfo : Option ProjectInfo) :
    ∀ (rules : List ListRule) (st : ResolveState),
      ((rules.foldl (processListRule board ghLabels gms pinfo)
        st).usedStatusWithoutProject = st.usedStatusWithoutProject)
  | [], st => rfl
  | r :: rs, st => by
    rw [List.foldl_cons, usedStatus_foldl board ghLabels gms pinfo rs,
      usedStatus_processListRule]

theorem usedStatus_resolveAll (board : Board) (m : MapFormat)
    (ghLabels : List GithubLabel) (gms : List GithubMilestone)
    (pinfo : Option ProjectInfo) :
    (resolveAll board m ghLabels gms pinfo).usedStatusWithoutProject = false := by
  unfold resolveAll
  rw [usedStatus_foldl]
  rfl

/-- C1: the claim says a status rule without a configured project makes the
run report "status used without project" and the plan invalid. The code
cannot do that: the block is guarded by `projectInfo && mapping.status`, so
the inner `if (!projectInfo)` that would set the flag is unreachable and
`usedStatusWithoutProject` is `false` on every input; on the concrete
configuration with a status rule and no project, the plan validates and the
status rule is silently dropped. -/
theorem c1_status_without_project_silently_ignored :
    (∀ (board : Board) (m : MapFormat) (ghLabels : List GithubLabel)
       (gms : List GithubMilestone) (pinfo : Option ProjectInfo),
       (resolveAll board m ghLabels gms pinfo).usedStatusWithoutProject = false)
    ∧ planValid (mkContext c1Board c1Map c1Snap c1Opts) = true
    ∧ (resolveAll c1Board c1Map [] [] none).validStatusFields = []
    ∧ (resolveAll c1Board c1Map [] [] none).missingStatusFields = [] := by
  refine ⟨fun board m ghLabels gms pinfo =>
    usedStatus_resolveAll board m ghLabels gms pinfo, rfl, rfl, rfl⟩

def c2Milestone : GithubMilestone := { id := 1, number := 5, title := "v1.0" }

def c2Board : Board :=
  { name := "B", lists := [{ id := "l1", name := "Backlog", closed := false }],
    members := [], actions := [],
    cards := [{ id := "c1", name := "Card one", url := "u", closed := false,
                desc := "", idChecklists := [], idList := "l1",
                idMembers := [], labels := [], attachments := [] }],
    labels := [], checklists := [] }

def c2Map : MapFormat :=
  { project := none, labels := [], users := [],
    lists := [{ list := "Backlog", status := none, create := false,
                label := none, milestone := some (Ref.str "v1.0") }],
    skipLists := [] }

def c2Snap : TargetSnapshot :=
  { githubLabels := [], githubMilestones := [c2Milestone],
    project := { projectId := "", projectName := "", statusFieldId := "",
                 statusFieldOptions := [] },
    lookupUser := fun _ => none, existingItems := [],
    issueNumberOf := fun _ => 0, issueNodeIdOf := fun _ => "",
    itemIdOf := fun _ => "" }

def c2Opts : RunOptions :=
  { dryRun := false, keepClosed := false, keepClosedLists := false }

/-- The milestone argument of an issue-creation call. -/
def issueMilestone : MutCall → Option (Option Int)
  | .createIssue _ _ _ _ ms => some ms
  | _ => none

/-- C2: the claim says the issue-creation call reads the resolved milestone
back by the card's list ID. The code reads `validMilestones.get(card.id)`
instead. On the concrete input, the resolver records milestone number 5
under the card's list ID "l1", the run validates, yet the single created
issue carries no milestone because the lookup used the card ID "c1". -/
theorem c2_milestone_read_by_card_id :
    mapGet (resolveAll c2Board c2Map [] [c2Milestone] none).validMilestones
        "l1" = some c2Milestone
    ∧ c2Board.cards.map TrelloCard.idList = ["l1"]
    ∧ c2Board.cards.map TrelloCard.id = ["c1"]
    ∧ (migrate c2Board c2Map c2Snap c2Opts).1 = true
    ∧ (migrate c2Board c2Map c2Snap c2Opts).2.filterMap issueMilestone =
        [none] := by
  refine ⟨rfl, rfl, rfl, rfl, rfl⟩

def c3List : TrelloList := { id := "l1", name := "Doing", closed := false }

def c3Pinfo : ProjectInfo :=
  { projectId := "PID", projectName := "P", statusFieldId := "F",
    statusFieldOptions := [] }

def c3Board : Board :=
  { name := "B", lists := [c3List], members := [], actions := [], cards := [],
    labels := [], checklists := [] }

def c3Map : MapFormat :=
  { project := some 1, labels := [], users := [],
    lists := [{ list := "Doing", status := some (Ref.str "In Progress"),
                create := false, label := some (Ref.str "wip"),
                milestone := some (Ref.str "Sprint 1") }],
    skipLists := [] }

/-- C3 counterexample: one list rule carries a label rule, a milestone rule
and a status rule; the label rule fails (no target label "wip"), and the
milestone and status references are also unresolvable against the empty
target milestones and status options. The claim requires the milestone and
status failures to be collected anyway, but the run's report has
`missingMilestones = []` and `missingStatusFields = []`: the label failure
`continue`d past both rules. -/
theorem c3_counterexample :
    (resolveAll c3Board c3Map [] [] (some c3Pinfo)).labels =
      [ResolvedLabel.missingList (Ref.str "wip") c3List]
    ∧ (resolveAll c3Board c3Map [] [] (some c3Pinfo)).missingMilestones = []
    ∧ (resolveAll c3Board c3Map [] [] (some c3Pinfo)).missingStatusFields = []
    ∧ (resolveAll c3Board c3Map [] [] (some c3Pinfo)).statusFieldsToCreate = []
    ∧ ([] : List GithubMilestone).find?
        (fun gm => milestoneRefMatches (Ref.str "Sprint 1") gm) = none
    ∧ c3Pinfo.statusFieldOptions.find?
        (fun f => statusRefMatches (Ref.str "In Progress") f) = none :=
  ⟨rfl, rfl, rfl, rfl, rfl, rfl⟩

/-- C3 (amended): within one list rule the three rules are evaluated
short-circuit, not independently: a failing label rule ends the rule's
processing with only the label failure collected (milestone and status rules
are not evaluated), and a failing milestone rule likewise ends processing
before the status rule. -/
theorem c3_rule_failure_short_circuits (ghLabels : List GithubLabel)
    (gms : List GithubMilestone) (pinfo : Option ProjectInfo)
    (tl : TrelloList) (m : ListRule) (st : ResolveState) :
    (∀ ref : Ref, m.label = some ref → ref.truthy = true →
      ghLabels.find? (fun g => labelRefMatches ref g) = none →
      listLabelStep ghLabels gms pinfo tl m st =
        { st with labels := st.labels ++ [.missingList ref tl] })
    ∧ (∀ ref : Ref, m.milestone = some ref → ref.truthy = true →
      gms.find? (fun gm => milestoneRefMatches ref gm) = none →
      milestoneStep gms pinfo tl m st =
        { st with missingMilestones := st.missingMilestones ++ [ref] }) := by
  constructor
  · intro ref h ht hf
    unfold listLabelStep
    rw [h]
    simp [optTruthy, ht, hf]
  · intro ref h ht hf
    unfold milestoneStep
    rw [h]
    simp [optTruthy, ht, hf]

theorem c3_witness :
    listLabelStep [] [] (some c3Pinfo) c3List
        { list := "Doing", status := some (Ref.str "In Progress"),
          create := false, label := some (Ref.str "wip"),
          milestone := some (Ref.str "Sprint 1") } (initState []) =
      { initState [] with
        labels := [ResolvedLabel.missingList (Ref.str "wip") c3List] } :=
  (c3_rule_failure_short_circuits [] [] (some c3Pinfo) c3List _
    (initState [])).1 (Ref.str "wip") rfl rfl rfl

/-! ## C4: body assembly for an empty-description card -/

theorem join_foldl_length (sep : String) :
    ∀ (l : List String) (a : String),
      a.length ≤ (l.foldl (fun acc x => acc ++ sep ++ x) a).length
  | [], a => le_refl _
  | x :: xs, a => by
    rw [List.foldl_cons]
    refine le_trans ?_ (join_foldl_length sep xs (a ++ sep ++ x))
    simp only [String.length_append]
    omega

theorem joinStrs_cons_ne_empty (sep a : String) (l : List String)
    (ha : 0 < a.length) : (joinStrs sep (a :: l) != "") = true := by
  have h := join_foldl_length sep l a
  rw [bne_iff_ne]
  intro heq
  rw [joinStrs] at heq
  rw [heq] at h
  simp [String.length_empty] at h
  omega

theorem checklistContent_ne_empty (board : Board) (card : TrelloCard)
    (s : String) (h : getChecklistContentForCard board card = some s) :
    (s != "") = true := by
  simp only [getChecklistContentForCard] at h
  split at h
  · simp at h
  · injection h with h
    subst h
    exact joinStrs_cons_ne_empty "\n" "\n## Checklists" _ (by decide)

/-- C4 (amended): for a card with empty description, at least one linked
checklist, and at least one attachment, the assembled body is the checklist
section, exactly one separator, then the provenance line and the attachment
bullets: there is no separator before the checklist section (it opens the
body, since the description is empty) and exactly one before the provenance
section. -/
theorem c4_empty_desc_single_separator (board : Board) (card : TrelloCard)
    (s : String) (hdesc : card.desc = "")
    (hcs : getChecklistContentForCard board card = some s)
    (hatt : card.attachments ≠ []) :
    getDescriptionForCard board card =
      s ++ "\n\n---\n\n" ++ "> Migrated from [Trello Card](" ++ card.url ++
        ")\n" ++ joinStrs "\n" (card.attachments.map
          (fun a => "- [" ++ a.name ++ "](" ++ a.url ++ ")")) := by
  have hne := checklistContent_ne_empty board card s hcs
  simp only [getDescriptionForCard, hcs, hdesc, strOptTruthy, hne,
    String.length_empty, Option.getD_some, gt_iff_lt, lt_self_iff_false,
    if_false, Bool.false_or, if_true, String.empty_append]
  simp

def c4Card : TrelloCard :=
  { id := "c4", name := "Card", url := "u", closed := false, desc := "",
    idChecklists := ["ck1"], idList := "l1", idMembers := [], labels := [],
    attachments := [{ id := "a1", name := "file", url := "au" }] }

def c4Board : Board :=
  { name := "B", lists := [], members := [], actions := [], cards := [c4Card],
    labels := [],
    checklists := [{ id := "ck1", name := "Tasks", idCard := "c4",
                     checkItems := [{ id := "i1", name := "item one",
                                      state := CheckState.incomplete }] }] }

/-- A count of the occurrences of a pattern in a character list. -/
def countOccs (pat : List Char) : List Char → Nat
  | [] => 0
  | c :: rest =>
    (if pat.isPrefixOf (c :: rest) then 1 else 0) + countOccs pat rest

set_option maxRecDepth 4000

/-- C4 counterexample: a card with empty description, one checklist and one
attachment. The claim requires one separator before the checklist section
and one before the provenance section — two in total — but the assembled
body contains exactly one occurrence of the horizontal rule, and the body
starts with the checklist section itself, so no separator precedes it. -/
theorem c4_counterexample :
    getDescriptionForCard c4Board c4Card =
      "\n## Checklists\n### Tasks\n- [ ] item one\n\n---\n\n> Migrated from [Trello Card](u)\n- [file](au)"
    ∧ countOccs "---".toList (getDescriptionForCard c4Board c4Card).toList = 1
    ∧ "\n## Checklists".toList.isPrefixOf
        (getDescriptionForCard c4Board c4Card).toList = true := by
  refine ⟨by decide, by decide, by decide⟩

theorem c4_witness :
    getDescriptionForCard c4Board c4Card =
      "\n## Checklists\n### Tasks\n- [ ] item one" ++ "\n\n---\n\n" ++
        "> Migrated from [Trello Card](" ++ c4Card.url ++ ")\n" ++
        joinStrs "\n" (c4Card.attachments.map
          (fun a => "- [" ++ a.name ++ "](" ++ a.url ++ ")")) :=
  c4_empty_desc_single_separator c4Board c4Card
    "\n## Checklists\n### Tasks\n- [ ] item one" rfl rfl (by decide)

/-! ## C5: the validity gate -/

/-- C5: the migration plan is valid iff every failure class is empty
(missing labels, unverified users, invalid lists, missing milestones,
missing status fields, status fields pending manual creation, and the
status-used-without-project flag), and on an invalid plan the run issues no
mutating target call at all. -/
theorem c5_plan_validity_gate (board : Board) (m : MapFormat)
    (snap : TargetSnapshot) (opts : RunOptions) :
    (planValid (mkContext board m snap opts) = true ↔
      ((mkContext board m snap opts).missingLabels = [] ∧
       (mkContext board m snap opts).invalidMembers = [] ∧
       (mkContext board m snap opts).invalidLists = [] ∧
       (mkContext board m snap opts).st.missingMilestones = [] ∧
       (mkContext board m snap opts).st.missingStatusFields = [] ∧
       (mkContext board m snap opts).st.statusFieldsToCreate = [] ∧
       (mkContext board m snap opts).st.usedStatusWithoutProject = false))
    ∧ (planValid (mkContext board m snap opts) = false →
        (migrate board m snap opts).2 = []) := by
  constructor
  · simp only [planValid, migrationFails, Bool.not_eq_true',
      Bool.or_eq_false_iff, decide_eq_false_iff_not, not_lt, Nat.le_zero,
      List.length_eq_zero]
    tauto
  · intro h
    have hfail : migrationFails (mkContext board m snap opts) = true := by
      revert h
      simp [planValid]
    simp [migrate, hfail]

def c5Board : Board :=
  { name := "B", lists := [], members := [], actions := [], cards := [],
    labels := [], checklists := [] }

def c5Map : MapFormat :=
  { project := none, labels := [],
    users := [{ trello := "alice", github := "ghalice" }], lists := [],
    skipLists := [] }

def c5Snap : TargetSnapshot :=
  { githubLabels := [], githubMilestones := [],
    project := { projectId := "", projectName := "", statusFieldId := "",
                 statusFieldOptions := [] },
    lookupUser := fun _ => none, existingItems := [],
    issueNumberOf := fun _ => 0, issueNodeIdOf := fun _ => "",
    itemIdOf := fun _ => "" }

def c5Opts : RunOptions :=
  { dryRun := false, keepClosed := false, keepClosedLists := false }

theorem c5_witness :
    planValid (mkContext c5Board c5Map c5Snap c5Opts) = false ∧
    (migrate c5Board c5Map c5Snap c5Opts).2 = [] :=
  ⟨rfl, (c5_plan_validity_gate c5Board c5Map c5Snap c5Opts).2 rfl⟩

/-! ## C6: status synchronizer and its idempotence -/

theorem syncStep_applySyncItem (cards : List TrelloCard)
    (vsf : List (String × StatusOption)) (item : ExistingItem) :
    syncStep cards vsf (applySyncItem cards vsf item) = none := by
  unfold applySyncItem
  cases h : syncStep cards vsf item with
  | none => exact h
  | some r =>
    unfold syncStep at h
    cases hf : cards.find? (fun card => card.name == item.issueTitle) with
    | none => rw [hf] at h; simp at h
    | some card =>
      rw [hf] at h
      simp only [Option.some_bind] at h
      cases hg : mapGet vsf card.idList with
      | none => rw [hg] at h; simp at h
      | some expected =>
        rw [hg] at h
        simp only [Option.some_bind] at h
        have hexp : r.2 = expected := by
          split at h
          · simp at h
          · injection h with h
            rw [← h]
        show (cards.find? (fun c => c.name == item.issueTitle)).bind
          (fun card => (mapGet vsf card.idList).bind (fun e =>
            if (some r.2.name : Option String) == some e.name then none
            else some (item.id, e))) = none
        rw [hf, Option.some_bind, hg, Option.some_bind, hexp]
        simp

/-- C6: an existing project item matched to a source card with a resolved
status mapping receives a field-value update call iff its current status
name differs from the expected status's name; and re-running the
synchronizer on the state produced by a completed run (with unchanged
source) issues zero update calls. -/
theorem c6_status_sync_idempotent (cards : List TrelloCard)
    (vsf : List (String × StatusOption)) :
    (∀ (item : ExistingItem) (card : TrelloCard) (expected : StatusOption),
      cards.find? (fun c => c.name == item.issueTitle) = some card →
      mapGet vsf card.idList = some expected →
      ((syncStep cards vsf item).isSome ↔
        item.currentStatus ≠ some expected.name))
    ∧ ∀ items : List ExistingItem,
        syncCalls cards vsf (applySync cards vsf items) = [] := by
  constructor
  · intro item card expected hf hg
    unfold syncStep
    rw [hf, Option.some_bind, hg, Option.some_bind]
    split
    · rename_i hcur
      simp only [beq_iff_eq] at hcur
      simp [hcur]
    · rename_i hcur
      simp only [beq_iff_eq] at hcur
      simp [hcur]
  · intro items
    unfold syncCalls applySync
    rw [List.filterMap_map]
    apply List.filterMap_eq_nil_iff.mpr
    intro item hmem
    simp [Function.comp, syncStep_applySyncItem]

def c6Done : StatusOption :=
  { id := "opt-done", name := "Done", color := "GREEN" }

def c6CardFix : TrelloCard :=
  { id := "cf", name := "Fix bug", url := "u1", closed := false, desc := "",
    idChecklists := [], idList := "l1", idMembers := [], labels := [],
    attachments := [] }

def c6CardAdd : TrelloCard :=
  { id := "ca", name := "Add feature", url := "u2", closed := false,
    desc := "", idChecklists := [], idList := "l1", idMembers := [],
    labels := [], attachments := [] }

def c6Cards : List TrelloCard := [c6CardFix, c6CardAdd]

def c6Vsf : List (String × StatusOption) := [("l1", c6Done)]

def c6ItemFix : ExistingItem :=
  { id := "i1", issueNumber := 1, issueTitle := "Fix bug",
    currentStatus := some "Todo" }

def c6ItemAdd : ExistingItem :=
  { id := "i2", issueNumber := 2, issueTitle := "Add feature",
    currentStatus := some "Done" }

theorem c6_witness :
    ((syncStep c6Cards c6Vsf c6ItemFix).isSome ↔
      c6ItemFix.currentStatus ≠ some c6Done.name)
    ∧ syncCalls c6Cards c6Vsf [c6ItemFix, c6ItemAdd] =
        [MutCall.setStatus "i1" "opt-done" "Done"]
    ∧ syncCalls c6Cards c6Vsf
        (applySync c6Cards c6Vsf [c6ItemFix, c6ItemAdd]) = [] :=
  ⟨(c6_status_sync_idempotent c6Cards c6Vsf).1 c6ItemFix c6CardFix c6Done
      rfl rfl,
   rfl,
   (c6_status_sync_idempotent c6Cards c6Vsf).2 [c6ItemFix, c6ItemAdd]⟩

/-! ## C7: status resolution under a configured project -/

def c7Pinfo : ProjectInfo :=
  { projectId := "PID", projectName := "Proj", statusFieldId := "FID",
    statusFieldOptions := [{ id := "opt1", name := "Done", color := "GREEN" }] }

def c7Board : Board :=
  { name := "B", lists := [{ id := "l1", name := "Review", closed := false }],
    members := [], actions := [], cards := [], labels := [], checklists := [] }

def c7Map : MapFormat :=
  { project := some 2, labels := [], users := [],
    lists := [{ list := "Review", status := some (Ref.int 0), create := false,
                label := none, milestone := none }],
    skipLists := [] }

/-- C7 counterexample: a list rule under a configured project whose status
reference is the numeric ID `0`. The claim requires a numeric miss with
`create=false` to be recorded as a missing status field; instead the whole
status block is skipped — `mapping.status` is falsy — and nothing is
recorded anywhere. -/
theorem c7_counterexample :
    c7Map.lists.map ListRule.status = [some (Ref.int 0)]
    ∧ (resolveAll c7Board c7Map [] [] (some c7Pinfo)).validStatusFields = []
    ∧ (resolveAll c7Board c7Map [] [] (some c7Pinfo)).missingStatusFields = []
    ∧ (resolveAll c7Board c7Map [] [] (some c7Pinfo)).statusFieldsToCreate
        = [] :=
  ⟨rfl, rfl, rfl, rfl⟩

/-- C7 (amended): for every list rule that actually reaches status
evaluation (its list resolves, its label and milestone rules did not fail
first) and whose status reference is truthy (a non-empty string or a
non-zero integer), under a configured project: a hit against the project's
status-field options is recorded in the resolved-status map regardless of
the rule's `create` flag; on a miss, if `create=true` and the reference is a
string it is recorded in the pending-manual-creation list, and if
`create=false` or the reference is numeric it is recorded as a missing
status field. A zero numeric status reference is skipped with nothing
recorded. -/
theorem c7_status_resolution (pi : ProjectInfo) (tl : TrelloList)
    (m : ListRule) (st : ResolveState) :
    (∀ (ref : Ref) (f : StatusOption), m.status = some ref →
      ref.truthy = true →
      pi.statusFieldOptions.find? (fun o => statusRefMatches ref o) = some f →
      statusStep (some pi) tl m st =
        { st with validStatusFields := mapSet st.validStatusFields tl.id f })
    ∧ (∀ s : String, m.status = some (Ref.str s) → (s != "") = true →
      m.create = true →
      pi.statusFieldOptions.find?
        (fun o => statusRefMatches (Ref.str s) o) = none →
      statusStep (some pi) tl m st =
        { st with statusFieldsToCreate :=
            st.statusFieldsToCreate ++ [(tl.id, s)] })
    ∧ (∀ ref : Ref, m.status = some ref → ref.truthy = true →
      (m.create = false ∨ ref.isStr = false) →
      pi.statusFieldOptions.find? (fun o => statusRefMatches ref o) = none →
      statusStep (some pi) tl m st =
        { st with missingStatusFields := st.missingStatusFields ++ [ref] }) := by
  refine ⟨?_, ?_, ?_⟩
  · intro ref f h ht hfind
    unfold statusStep
    rw [h]
    simp [optTruthy, ht, hfind]
  · intro s h ht hc hfind
    unfold statusStep
    rw [h]
    simp [optTruthy, Ref.truthy, ht, hc, hfind, Ref.isStr, Ref.strVal]
  · intro ref h ht hdisj hfind
    unfold statusStep
    rw [h]
    rcases hdisj with hc | hstr
    · simp [optTruthy, ht, hfind, hc]
    · cases ref with
      | int n =>
        simp only [Ref.truthy, bne_iff_ne] at ht
        simp [optTruthy, Ref.truthy, ht, hfind, Ref.isStr]
      | str s2 => simp [Ref.isStr] at hstr

def c7WOption : StatusOption :=
  { id := "o1", name := "Done", color := "BLUE" }

def c7WPinfo : ProjectInfo :=
  { projectId := "P", projectName := "Pr", statusFieldId := "F",
    statusFieldOptions := [c7WOption] }

def c7WList : TrelloList := { id := "lw", name := "DoneL", closed := false }

def c7WRule : ListRule :=
  { list := "DoneL", status := some (Ref.str "Done"), create := true,
    label := none, milestone := none }

theorem c7_witness :
    statusStep (some c7WPinfo) c7WList c7WRule (initState []) =
      { initState [] with validStatusFields := mapSet [] "lw" c7WOption } :=
  (c7_status_resolution c7WPinfo c7WList c7WRule (initState [])).1
    (Ref.str "Done") c7WOption rfl rfl rfl

/-! ## C8: source-label classification -/

/-- C8: every source label is classified by the first mapping rule whose
Trello name equals the label's name: absent a rule → skipped; a create rule
→ toCreate with the rule's target name and color; a lookup rule whose
reference the Identity Matcher resolves against the target labels → mapped
to the first match; a lookup rule with no match → missing. The matcher hits
exactly when an integer reference equals the target label's ID or a string
reference equals its name. -/
theorem c8_label_resolver_classification (rules : List LabelRule)
    (gh : List GithubLabel) (tl : TrelloLabel) :
    (rules.find? (fun r => r.trelloName == tl.name) = none →
      resolveLabel rules gh tl = .skipped tl)
    ∧ (∀ (t n : String) (c : Option String),
      rules.find? (fun r => r.trelloName == tl.name) =
          some (.create t n c) →
      resolveLabel rules gh tl = .toCreate tl n c)
    ∧ (∀ (t : String) (ref : Ref) (g : GithubLabel),
      rules.find? (fun r => r.trelloName == tl.name) =
          some (.lookup t ref) →
      gh.find? (fun gl => labelRefMatches ref gl) = some g →
      resolveLabel rules gh tl = .mapped tl g)
    ∧ (∀ (t : String) (ref : Ref),
      rules.find? (fun r => r.trelloName == tl.name) =
          some (.lookup t ref) →
      gh.find? (fun gl => labelRefMatches ref gl) = none →
      resolveLabel rules gh tl = .missing tl ref)
    ∧ (∀ (ref : Ref) (g : GithubLabel), labelRefMatches ref g = true ↔
      ((∃ n : Int, ref = Ref.int n ∧ g.id = n) ∨
       (∃ s : String, ref = Ref.str s ∧ g.name = s))) := by
  refine ⟨?_, ?_, ?_, ?_, ?_⟩
  · intro h
    simp [resolveLabel, h]
  · intro t n c h
    simp [resolveLabel, h]
  · intro t ref g h hf
    simp [resolveLabel, h, hf]
  · intro t ref h hf
    simp [resolveLabel, h, hf]
  · intro ref g
    cases ref with
    | int n => simp [labelRefMatches]
    | str s => simp [labelRefMatches]

def c8Bug : TrelloLabel := { id := "tb", name := "bug", color := "red" }

def c8Gh : GithubLabel := { id := 1, name := "bug" }

theorem c8_witness :
    resolveLabel [LabelRule.lookup "bug" (Ref.str "bug")] [c8Gh] c8Bug =
      ResolvedLabel.mapped c8Bug c8Gh
    ∧ resolveLabel [LabelRule.lookup "bug" (Ref.int 99)] [] c8Bug =
      ResolvedLabel.missing c8Bug (Ref.int 99) :=
  ⟨(c8_label_resolver_classification [LabelRule.lookup "bug" (Ref.str "bug")]
      [c8Gh] c8Bug).2.2.1 "bug" (Ref.str "bug") c8Gh rfl rfl,
   (c8_label_resolver_classification [LabelRule.lookup "bug" (Ref.int 99)]
      [] c8Bug).2.2.2.1 "bug" (Ref.int 99) rfl rfl⟩

/-! ## C9: comment selection, ordering, rendering -/

def c9Card : TrelloCard :=
  { id := "c9", name := "C", url := "u", closed := false, desc := "",
    idChecklists := [], idList := "l", idMembers := [], labels := [],
    attachments := [] }

def c9A1 : CommentAction :=
  { id := "a1", memberCreatorId := "m", memberCreatorUsername := "u1",
    idCard := "c9", text := "t1", date := { time := 1, localeDate := "d1" } }

def c9A2 : CommentAction :=
  { id := "a2", memberCreatorId := "m", memberCreatorUsername := "u1",
    idCard := "c9", text := "t2", date := { time := 2, localeDate := "d2" } }

def c9A3 : CommentAction :=
  { id := "a3", memberCreatorId := "m", memberCreatorUsername := "u1",
    idCard := "c9", text := "t3", date := { time := 3, localeDate := "d3" } }

def c9Board : Board :=
  { name := "B", lists := [], members := [],
    actions := [TrelloAction.commentCard c9A3, TrelloAction.other,
                TrelloAction.commentCard c9A1, TrelloAction.commentCard c9A2],
    cards := [c9Card], labels := [], checklists := [] }

/-- C9: the rendered comments of a card are exactly the comment-type actions
whose card reference equals the card's ID, in ascending timestamp order
(the sort permutes the matching actions and its output is sorted), each
rendered as a member header plus date followed by the original text
verbatim; on the concrete input with timestamps [T3, T1, T2] the output
order is [T1, T2, T3]. -/
theorem c9_comment_ordering (board : Board) (validMembers : List UserEntry)
    (card : TrelloCard) :
    getCommentsForCard board validMembers card =
      (sortComments (commentsFor board.actions card)).map
        (renderComment board.members validMembers)
    ∧ (sortComments (commentsFor board.actions card)).Perm
        (commentsFor board.actions card)
    ∧ List.Sorted commentLE (sortComments (commentsFor board.actions card))
    ∧ (∀ c : CommentAction, renderComment board.members validMembers c =
        "## " ++ (match mapMemberId board.members validMembers
                    c.memberCreatorId with
                  | some login => "@" ++ login
                  | none => "`@" ++ c.memberCreatorUsername ++ "`") ++
          " • " ++ c.date.localeDate ++ "\n" ++ c.text)
    ∧ getCommentsForCard c9Board [] c9Card =
        ["## `@u1` • d1\nt1", "## `@u1` • d2\nt2", "## `@u1` • d3\nt3"] := by
  refine ⟨rfl, List.perm_insertionSort _ _, List.sorted_insertionSort _ _,
    fun c => rfl, by decide⟩

theorem c9_witness :
    getCommentsForCard c9Board [] c9Card =
      (sortComments (commentsFor c9Board.actions c9Card)).map
        (renderComment c9Board.members [])
    ∧ List.Sorted commentLE (sortComments (commentsFor c9Board.actions c9Card)) :=
  ⟨(c9_comment_ordering c9Board [] c9Card).1,
   (c9_comment_ordering c9Board [] c9Card).2.2.1⟩

/-! ## C10: the dry-run flag -/

/-- C10: the `--dry-run` option is parsed but never consulted: two runs on
the same inputs that differ only in the flag's value produce the identical
verdict and the identical sequence of mutating target calls. -/
theorem c10_dry_run_no_effect (board : Board) (m : MapFormat)
    (snap : TargetSnapshot) (d1 d2 kc kcl : Bool) :
    migrate board m snap
        { dryRun := d1, keepClosed := kc, keepClosedLists := kcl } =
      migrate board m snap
        { dryRun := d2, keepClosed := kc, keepClosedLists := kcl } := rfl
